import Mathlib

/-!
Shallow embedding of `passbook/admin/views/overview.py`: the administration
overview view (`AdministrationOverviewView.get_context_data`,
`get_latest_version`, `get_most_used_applications`) and the two cache-clear
form views (`PolicyCacheClearView.post`, `FlowCacheClearView.post`).

The cache is modelled as an association list from string keys to string
values (Django's generic key-value cache with redis-style glob key listing
and bulk delete).  The database is modelled as lists of records with exactly
the fields the view reads.  Side-effecting primitives (cache deletion, task
enqueueing) pass an explicit system state.
-/

namespace Passbook

/-- The cache: an association list of key/value entries.  Values are strings
(the overview code only ever reads the version entry, a string). -/
abbrev Cache := List (String × String)

/-- Key matching for a fixed stem: `hasPfx p k` holds when the key `k`
starts with the stem `p` (computed on the underlying character lists). -/
def hasPfx (p k : String) : Bool :=
  List.isPrefixOf p.data k.data

/-- Redis-style glob matching restricted to the patterns the source uses:
a pattern ending in `*` matches every key starting with the part before the
`*`; any other pattern matches only itself.  Modelled from the spec:
`cache.keys` enumerates "all cache keys matching a fixed prefix". -/
def globMatch (pattern key : String) : Bool :=
  if pattern.data.getLast? = some '*' then hasPfx ⟨pattern.data.dropLast⟩ key
  else pattern == key

/-- Embeds `cache.keys(pattern)`: the keys of all entries matching the
pattern. -/
def cacheKeys (pattern : String) (c : Cache) : List String :=
  (c.filter (fun kv => globMatch pattern kv.1)).map Prod.fst

/-- Embeds `cache.delete_many(keys)`: drop every entry whose key occurs in
`ks`. -/
def deleteMany (ks : List String) (c : Cache) : Cache :=
  c.filter (fun kv => !(ks.contains kv.1))

/-- Embeds `cache.get(key)`: the value stored under `key`, if any. -/
def cacheLookup (k : String) (c : Cache) : Option String :=
  c.lookup k

/-- Python truthiness of `cache.get`'s result: `None` and the empty string
are falsy (the source tests `if not version_in_cache`). -/
def pyTruthy : Option String → Bool
  | none => false
  | some s => !(s == "")

/-- A policy record, with its reverse relations as read by
`Policy.objects.filter(bindings__isnull=True, promptstage__isnull=True)`:
the ids of its policy bindings and of the prompt stages it is attached to. -/
structure Policy where
  bindings : List Nat
  promptstage : List Nat
deriving DecidableEq, Repr

/-- A user record.  Modelled from the spec: the view only counts users. -/
structure User where
  pk : Nat
deriving DecidableEq, Repr

/-- A provider record with its (optional) associated application, as read by
`Provider.objects.filter(application=None)`. -/
structure Provider where
  application : Option Nat
deriving DecidableEq, Repr

/-- Audit event actions.  Modelled from the spec: the audit app's event
kinds; the overview only selects `AUTHORIZE_APPLICATION`. -/
inductive EventAction where
  | login
  | login_failed
  | logout
  | authorize_application
  | sign_up
deriving DecidableEq, Repr

/-- An audit event with the JSON fields the aggregation extracts:
`context__authorized_application` and the user snapshot's `pk` (both as
text, both possibly absent). -/
structure Event where
  action : EventAction
  context_authorized_application : Option String
  user_pk : Option String
deriving DecidableEq, Repr

/-- The database tables the overview view reads. -/
structure DB where
  policies : List Policy
  users : List User
  providers : List Provider
  events : List Event
deriving DecidableEq, Repr

/-- The mutable system state a request handler acts on: the database, the
cache store, and the number of version-check tasks enqueued so far. -/
structure SysState where
  db : DB
  store : Cache
  queued_tasks : Nat
deriving DecidableEq, Repr

/-- A parsed version.  Modelled from the spec: `packaging.version.parse`,
kept abstract as a tagged wrapper of the raw string. -/
structure Version where
  raw : String
deriving DecidableEq, Repr

/-- Embeds `packaging.version.parse`. -/
def parse (s : String) : Version := ⟨s⟩

/-- Modelled from the spec: the constant `passbook.__version__` (its value
is immaterial to every claim). -/
def PASSBOOK_VERSION : String := "0.9.0"

/-- Modelled from the spec: `passbook.admin.tasks.VERSION_CACHE_KEY`, the
cache key holding the latest known version. -/
def VERSION_CACHE_KEY : String := "passbook_latest_version"

/-- Embeds `AdministrationOverviewView.get_latest_version`: return the
parsed cached version when truthy; otherwise enqueue the version-check task
(unless `settings.DEBUG`) and return the parse of `__version__`. -/
def get_latest_version (debug : Bool) (s : SysState) : Version × SysState :=
  let version_in_cache := cacheLookup VERSION_CACHE_KEY s.store
  if !(pyTruthy version_in_cache) then
    let s₁ := if !debug then { s with queued_tasks := s.queued_tasks + 1 } else s
    (parse PASSBOOK_VERSION, s₁)
  else
    (parse (version_in_cache.getD ""), s)

/-- Embeds the queryset filter
`Event.objects.filter(action=EventAction.AUTHORIZE_APPLICATION)
.exclude(context__authorized_application=None)`. -/
def filteredAuthEvents (evs : List Event) : List Event :=
  evs.filter (fun ev =>
    ev.action == EventAction.authorize_application
      && ev.context_authorized_application.isSome)

/-- One row of `get_most_used_applications`'s result: the values
`("unique_users", "application", "total_logins")`. -/
structure AppStat where
  application : String
  total_logins : Nat
  unique_users : Nat
deriving DecidableEq, Repr

/-- The group of filtered events annotated with a given application value
(the rows aggregated by `.values("application")`). -/
def eventGroup (evs : List Event) (app : String) : List Event :=
  (filteredAuthEvents evs).filter
    (fun ev => ev.context_authorized_application == some app)

/-- The aggregates for one application group:
`total_logins=Count("application")` counts the group's rows and
`unique_users=Count("user_pk", distinct=True)` counts its distinct non-null
user pks. -/
def statsFor (evs : List Event) (app : String) : AppStat :=
  { application := app
    total_logins := (eventGroup evs app).length
    unique_users := ((eventGroup evs app).filterMap Event.user_pk).dedup.length }

/-- The distinct application values appearing among the filtered events (the
grouping keys of `.values("application")`). -/
def applicationValues (evs : List Event) : List String :=
  ((filteredAuthEvents evs).filterMap Event.context_authorized_application).dedup

/-- The ordering `order_by("-total_logins")`: descending by total login
count. -/
def byLoginsDesc (a b : AppStat) : Prop :=
  b.total_logins ≤ a.total_logins

instance : DecidableRel byLoginsDesc :=
  fun a b => Nat.decLe b.total_logins a.total_logins

instance : IsTotal AppStat byLoginsDesc :=
  ⟨fun a b => Nat.le_total b.total_logins a.total_logins⟩

instance : IsTrans AppStat byLoginsDesc :=
  ⟨fun _ _ _ hab hbc => Nat.le_trans hbc hab⟩

/-- Embeds `AdministrationOverviewView.get_most_used_applications`: group
the authorization events by application, aggregate, order by descending
total logins, and keep the first 15 rows. -/
def get_most_used_applications (evs : List Event) : List AppStat :=
  (List.insertionSort byLoginsDesc
    ((applicationValues evs).map (statsFor evs))).take 15

/-- The template context assembled by
`AdministrationOverviewView.get_context_data`. -/
structure Context where
  policy_count : Nat
  user_count : Int
  provider_count : Nat
  version : Version
  version_latest : Version
  most_used_applications : List AppStat
  providers_without_application : List Provider
  policies_without_binding : Nat
  cached_policies : Nat
  cached_flows : Nat
deriving DecidableEq, Repr

/-- Embeds `AdministrationOverviewView.get_context_data`, threading the
system state through the one effectful call (`get_latest_version`). -/
def get_context_data (debug : Bool) (s : SysState) : Context × SysState :=
  let policy_count := s.db.policies.length
  let user_count : Int := (s.db.users.length : Int) - 1
  let provider_count := s.db.providers.length
  let version := parse PASSBOOK_VERSION
  let vl := get_latest_version debug s
  let s₁ := vl.2
  ({ policy_count := policy_count
     user_count := user_count
     provider_count := provider_count
     version := version
     version_latest := vl.1
     most_used_applications := get_most_used_applications s₁.db.events
     providers_without_application :=
       s₁.db.providers.filter (fun p => p.application.isNone)
     policies_without_binding :=
       (s₁.db.policies.filter
         (fun p => p.bindings.isEmpty && p.promptstage.isEmpty)).length
     cached_policies := (cacheKeys "policy_*" s₁.store).length
     cached_flows := (cacheKeys "flow_*" s₁.store).length }, s₁)

/-- The response of a cache-clear view's `post`. -/
inductive PostResponse where
  | redirect (url : String) (success_message : String)
  | form_error
deriving DecidableEq, Repr

/-- Modelled from the spec: `reverse_lazy("passbook_admin:overview")`, the
overview page the cache-clear views redirect to on success. -/
def overview_url : String := "passbook_admin:overview"

/-- Embeds `PolicyCacheClearView.post`: delete every `policy_*` cache entry,
then defer to `FormView.post`.  The `FormView`/`SuccessMessageMixin` tail is
modelled from the spec: a valid confirmation form yields a redirect to the
overview page with the success message, an invalid one re-renders the form. -/
def policy_cache_clear_post (form_valid : Bool) (s : SysState) :
    PostResponse × SysState :=
  let keys := cacheKeys "policy_*" s.store
  let s₁ := { s with store := deleteMany keys s.store }
  if form_valid then
    (PostResponse.redirect overview_url "Successfully cleared Policy cache", s₁)
  else
    (PostResponse.form_error, s₁)

/-- Embeds `FlowCacheClearView.post`: delete every `flow_*` cache entry,
then defer to `FormView.post`.  The `FormView`/`SuccessMessageMixin` tail is
modelled from the spec: a valid confirmation form yields a redirect to the
overview page with the success message, an invalid one re-renders the form. -/
def flow_cache_clear_post (form_valid : Bool) (s : SysState) :
    PostResponse × SysState :=
  let keys := cacheKeys "flow_*" s.store
  let s₁ := { s with store := deleteMany keys s.store }
  if form_valid then
    (PostResponse.redirect overview_url "Successfully cleared Flow cache", s₁)
  else
    (PostResponse.form_error, s₁)

/-- The pure store transformation both cache-clear views perform:
`cache.delete_many(cache.keys(pattern))`. -/
def clearPrefixStore (pattern : String) (c : Cache) : Cache :=
  deleteMany (cacheKeys pattern c) c


theorem globMatch_policy (k : String) : globMatch "policy_*" k = hasPfx "policy_" k := by
  have h1 : "policy_*".data.getLast? = some '*' := by decide
  have h2 : (⟨"policy_*".data.dropLast⟩ : String) = "policy_" := by decide
  simp only [globMatch]
  rw [if_pos h1, h2]

theorem globMatch_flow (k : String) : globMatch "flow_*" k = hasPfx "flow_" k := by
  have h1 : "flow_*".data.getLast? = some '*' := by decide
  have h2 : (⟨"flow_*".data.dropLast⟩ : String) = "flow_" := by decide
  simp only [globMatch]
  rw [if_pos h1, h2]

theorem clearPrefixStore_eq_filter (p : String) (c : Cache) :
    clearPrefixStore p c = c.filter (fun kv => !(globMatch p kv.1)) := by
  unfold clearPrefixStore deleteMany
  refine List.filter_congr ?_
  intro kv hkv
  congr 1
  cases h : globMatch p kv.1 with
  | true =>
    refine List.elem_iff.mpr ?_
    exact List.mem_map.mpr ⟨kv, List.mem_filter.mpr ⟨hkv, h⟩, rfl⟩
  | false =>
    refine Bool.eq_false_iff.mpr ?_
    intro hc
    obtain ⟨kw, hkw, hfst⟩ := List.mem_map.mp (List.elem_iff.mp hc)
    have hg := (List.mem_filter.mp hkw).2
    rw [hfst] at hg
    simp [h] at hg

theorem lookup_filter_not (q : String → Bool) (k : String) (h : q k = false)
    (c : Cache) : (c.filter (fun kv => !(q kv.1))).lookup k = c.lookup k := by
  induction c with
  | nil => rfl
  | cons kv rest ih =>
    obtain ⟨a, b⟩ := kv
    cases hq : q a with
    | true =>
      have hk : (k == a) = false := by
        cases hbe : k == a
        · rfl
        · rw [eq_of_beq hbe, hq] at h
          cases h
      simp [List.filter_cons, hq, List.lookup_cons, hk, ih]
    | false =>
      cases hbe : k == a <;>
        simp [List.filter_cons, hq, List.lookup_cons, hbe, ih]

theorem lookup_filter_none (q : String → Bool) (k : String) (h : q k = true)
    (c : Cache) : (c.filter (fun kv => !(q kv.1))).lookup k = none := by
  refine List.lookup_eq_none_iff.mpr ?_
  intro kv hkv
  have hg := (List.mem_filter.mp hkv).2
  simp only [bne_iff_ne, ne_eq]
  intro he
  rw [← he, h] at hg
  simp at hg


theorem clearPrefix_lookup_none (pat stem : String)
    (hps : ∀ k, globMatch pat k = hasPfx stem k) (c : Cache) (k : String)
    (h : hasPfx stem k = true) : (clearPrefixStore pat c).lookup k = none := by
  rw [clearPrefixStore_eq_filter]
  have hfun : (fun kv : String × String => !(globMatch pat kv.1))
      = (fun kv : String × String => !(hasPfx stem kv.1)) := by
    funext kv; rw [hps]
  rw [hfun]
  exact lookup_filter_none _ _ h c

theorem clearPrefix_lookup_keep (pat stem : String)
    (hps : ∀ k, globMatch pat k = hasPfx stem k) (c : Cache) (k : String)
    (h : hasPfx stem k = false) : (clearPrefixStore pat c).lookup k = c.lookup k := by
  rw [clearPrefixStore_eq_filter]
  have hfun : (fun kv : String × String => !(globMatch pat kv.1))
      = (fun kv : String × String => !(hasPfx stem kv.1)) := by
    funext kv; rw [hps]
  rw [hfun]
  exact lookup_filter_not _ _ h c

theorem clearPrefixStore_idem (p : String) (c : Cache) :
    clearPrefixStore p (clearPrefixStore p c) = clearPrefixStore p c := by
  rw [clearPrefixStore_eq_filter p (clearPrefixStore p c), clearPrefixStore_eq_filter p c,
    List.filter_filter]
  refine List.filter_congr ?_
  intro kv _
  cases globMatch p kv.1 <;> rfl

theorem clearPrefixStore_no_match (p : String) (c : Cache)
    (h : cacheKeys p c = []) : clearPrefixStore p c = c := by
  unfold clearPrefixStore
  rw [h]
  simp [deleteMany]

theorem glv_store (debug : Bool) (s : SysState) :
    (get_latest_version debug s).2.store = s.store := by
  unfold get_latest_version
  cases h : pyTruthy (cacheLookup VERSION_CACHE_KEY s.store) <;> cases debug <;> simp [h]

theorem glv_db (debug : Bool) (s : SysState) :
    (get_latest_version debug s).2.db = s.db := by
  unfold get_latest_version
  cases h : pyTruthy (cacheLookup VERSION_CACHE_KEY s.store) <;> cases debug <;> simp [h]

theorem get_latest_version_truthy (debug : Bool) (s : SysState) (v : String)
    (hv : cacheLookup VERSION_CACHE_KEY s.store = some v) (hne : v ≠ "") :
    get_latest_version debug s = (parse v, s) := by
  have hb : (v == "") = false := beq_eq_false_iff_ne.mpr hne
  simp [get_latest_version, hv, pyTruthy, hb]

theorem get_latest_version_falsy (debug : Bool) (s : SysState)
    (h : pyTruthy (cacheLookup VERSION_CACHE_KEY s.store) = false) :
    get_latest_version debug s =
      (parse PASSBOOK_VERSION,
        { s with queued_tasks := s.queued_tasks + (if debug then 0 else 1) }) := by
  cases debug <;> simp [get_latest_version, h]

theorem get_latest_version_state (debug : Bool) (s : SysState) :
    (get_latest_version debug s).2
      = { s with queued_tasks := s.queued_tasks
            + (if pyTruthy (cacheLookup VERSION_CACHE_KEY s.store) || debug then 0 else 1) } := by
  cases h : pyTruthy (cacheLookup VERSION_CACHE_KEY s.store) <;> cases debug <;>
    simp [get_latest_version, h]

theorem cacheKeys_length (p : String) (c : Cache) :
    (cacheKeys p c).length = c.countP (fun kv => globMatch p kv.1) := by
  unfold cacheKeys
  rw [List.length_map, ← List.countP_eq_length_filter]


/-- C1: each cache-clear post deletes exactly the keys matching its fixed
prefix: afterwards every matching key is gone and every non-matching key
still maps to its original value. -/
theorem cache_clear_exactly_matching (s : SysState) :
    ((∀ k, hasPfx "policy_" k = true →
        cacheLookup k ((policy_cache_clear_post true s).2.store) = none)
      ∧ (∀ k, hasPfx "policy_" k = false →
        cacheLookup k ((policy_cache_clear_post true s).2.store) = cacheLookup k s.store))
    ∧ ((∀ k, hasPfx "flow_" k = true →
        cacheLookup k ((flow_cache_clear_post true s).2.store) = none)
      ∧ (∀ k, hasPfx "flow_" k = false →
        cacheLookup k ((flow_cache_clear_post true s).2.store) = cacheLookup k s.store)) := by
  refine ⟨⟨fun k hk => ?_, fun k hk => ?_⟩, fun k hk => ?_, fun k hk => ?_⟩
  · exact clearPrefix_lookup_none _ _ globMatch_policy s.store k hk
  · exact clearPrefix_lookup_keep _ _ globMatch_policy s.store k hk
  · exact clearPrefix_lookup_none _ _ globMatch_flow s.store k hk
  · exact clearPrefix_lookup_keep _ _ globMatch_flow s.store k hk

theorem cache_clear_exactly_matching_witness :
    (cacheLookup "policy_a"
        ((policy_cache_clear_post true
          ⟨⟨[], [], [], []⟩, [("policy_a", "1"), ("flow_b", "2"), ("other", "3")], 0⟩).2.store)
        = none)
    ∧ (cacheLookup "other"
        ((policy_cache_clear_post true
          ⟨⟨[], [], [], []⟩, [("policy_a", "1"), ("flow_b", "2"), ("other", "3")], 0⟩).2.store)
        = cacheLookup "other"
            (⟨⟨[], [], [], []⟩, [("policy_a", "1"), ("flow_b", "2"), ("other", "3")], 0⟩
              : SysState).store)
    ∧ (cacheLookup "flow_b"
        ((flow_cache_clear_post true
          ⟨⟨[], [], [], []⟩, [("policy_a", "1"), ("flow_b", "2"), ("other", "3")], 0⟩).2.store)
        = none) :=
  ⟨(cache_clear_exactly_matching
      ⟨⟨[], [], [], []⟩, [("policy_a", "1"), ("flow_b", "2"), ("other", "3")], 0⟩).1.1
      "policy_a" (by decide),
   (cache_clear_exactly_matching
      ⟨⟨[], [], [], []⟩, [("policy_a", "1"), ("flow_b", "2"), ("other", "3")], 0⟩).1.2
      "other" (by decide),
   (cache_clear_exactly_matching
      ⟨⟨[], [], [], []⟩, [("policy_a", "1"), ("flow_b", "2"), ("other", "3")], 0⟩).2.1
      "flow_b" (by decide)⟩

/-- C2: the overview context's policy, user and provider counts are the
table sizes, the user count less one for the anonymous user. -/
theorem overview_counts (debug : Bool) (s : SysState) :
    (get_context_data debug s).1.policy_count = s.db.policies.length
    ∧ (get_context_data debug s).1.user_count = (s.db.users.length : Int) - 1
    ∧ (get_context_data debug s).1.provider_count = s.db.providers.length :=
  ⟨rfl, rfl, rfl⟩

/-- C3 (amended): `get_latest_version` returns the parsed cached version and
changes nothing when a non-empty entry is cached; when the entry is absent
or empty it returns the parse of `__version__` and enqueues the
version-check task exactly when non-debug. -/
theorem get_latest_version_spec (debug : Bool) (s : SysState) :
    (∀ v : String, cacheLookup VERSION_CACHE_KEY s.store = some v → v ≠ "" →
        get_latest_version debug s = (parse v, s))
    ∧ (pyTruthy (cacheLookup VERSION_CACHE_KEY s.store) = false →
        (get_latest_version debug s).1 = parse PASSBOOK_VERSION
        ∧ (get_latest_version debug s).2.db = s.db
        ∧ (get_latest_version debug s).2.store = s.store
        ∧ (get_latest_version debug s).2.queued_tasks
            = s.queued_tasks + (if debug then 0 else 1)) := by
  refine ⟨fun v hv hne => get_latest_version_truthy debug s v hv hne, fun h => ?_⟩
  rw [get_latest_version_falsy debug s h]
  exact ⟨rfl, rfl, rfl, rfl⟩

theorem get_latest_version_spec_witness :
    get_latest_version true ⟨⟨[], [], [], []⟩, [(VERSION_CACHE_KEY, "1.2.3")], 0⟩
      = (parse "1.2.3", ⟨⟨[], [], [], []⟩, [(VERSION_CACHE_KEY, "1.2.3")], 0⟩)
    ∧ (get_latest_version false ⟨⟨[], [], [], []⟩, [], 0⟩).1 = parse PASSBOOK_VERSION :=
  ⟨(get_latest_version_spec true
      ⟨⟨[], [], [], []⟩, [(VERSION_CACHE_KEY, "1.2.3")], 0⟩).1 "1.2.3" (by decide) (by decide),
   ((get_latest_version_spec false ⟨⟨[], [], [], []⟩, [], 0⟩).2 (by decide)).1⟩

/-- C3 counterexample: with the empty string cached under the version key
the entry is present, yet the code falls back to `__version__` and enqueues
the version-check task. -/
theorem get_latest_version_truthiness_cex :
    cacheLookup VERSION_CACHE_KEY [(VERSION_CACHE_KEY, "")] = some ""
    ∧ (get_latest_version false
        ⟨⟨[], [], [], []⟩, [(VERSION_CACHE_KEY, "")], 0⟩).1 ≠ parse ""
    ∧ (get_latest_version false
        ⟨⟨[], [], [], []⟩, [(VERSION_CACHE_KEY, "")], 0⟩).2.queued_tasks = 1 := by
  exact ⟨by decide, by decide, by decide⟩

/-- C4 (amended): the overview's `policies_without_binding` counts the
policies that have no bindings and are attached to no prompt stage. -/
theorem policies_without_binding_spec (debug : Bool) (s : SysState) :
    (get_context_data debug s).1.policies_without_binding
      = s.db.policies.countP (fun p => p.bindings.isEmpty && p.promptstage.isEmpty) := by
  show ((get_latest_version debug s).2.db.policies.filter
      (fun p => p.bindings.isEmpty && p.promptstage.isEmpty)).length = _
  rw [glv_db, ← List.countP_eq_length_filter]

/-- C4 counterexample: a policy with no bindings but attached to a prompt
stage is not counted, so the value differs from the number of policies
without bindings. -/
theorem policies_without_binding_cex :
    (get_context_data true ⟨⟨[⟨[], [7]⟩], [], [], []⟩, [], 0⟩).1.policies_without_binding
      ≠ List.countP (fun p => p.bindings.isEmpty)
          (⟨⟨[⟨[], [7]⟩], [], [], []⟩, [], 0⟩ : SysState).db.policies := by
  decide

/-- C6 (amended): `get_context_data` leaves the database and the cache
unchanged; its only side effect is enqueuing one version-check task, which
happens exactly when the cached version is absent or empty and non-debug. -/
theorem get_context_data_effects (debug : Bool) (s : SysState) :
    (get_context_data debug s).2.db = s.db
    ∧ (get_context_data debug s).2.store = s.store
    ∧ (get_context_data debug s).2.queued_tasks
        = s.queued_tasks
          + (if pyTruthy (cacheLookup VERSION_CACHE_KEY s.store) || debug then 0 else 1) := by
  have h2 : (get_context_data debug s).2 = (get_latest_version debug s).2 := rfl
  rw [h2, get_latest_version_state]
  exact ⟨rfl, rfl, rfl⟩

/-- C6 counterexample: with the empty string cached under the version key
the version entry is present, yet `get_context_data` enqueues the
version-check task. -/
theorem get_context_data_effects_cex :
    cacheLookup VERSION_CACHE_KEY [(VERSION_CACHE_KEY, "")] = some ""
    ∧ (get_context_data false
        ⟨⟨[], [], [], []⟩, [(VERSION_CACHE_KEY, "")], 0⟩).2.queued_tasks = 1 := by
  exact ⟨by decide, by decide⟩

/-- C7: the overview context's `cached_policies` and `cached_flows` count
the cache entries whose keys match the `policy_` and `flow_` prefixes. -/
theorem cached_counts (debug : Bool) (s : SysState) :
    (get_context_data debug s).1.cached_policies
        = s.store.countP (fun kv => hasPfx "policy_" kv.1)
    ∧ (get_context_data debug s).1.cached_flows
        = s.store.countP (fun kv => hasPfx "flow_" kv.1) := by
  have hp : (fun kv : String × String => globMatch "policy_*" kv.1)
      = (fun kv : String × String => hasPfx "policy_" kv.1) := by
    funext kv; rw [globMatch_policy]
  have hf : (fun kv : String × String => globMatch "flow_*" kv.1)
      = (fun kv : String × String => hasPfx "flow_" kv.1) := by
    funext kv; rw [globMatch_flow]
  constructor
  · show (cacheKeys "policy_*" (get_latest_version debug s).2.store).length = _
    rw [glv_store, cacheKeys_length, hp]
  · show (cacheKeys "flow_*" (get_latest_version debug s).2.store).length = _
    rw [glv_store, cacheKeys_length, hf]

/-- C8: on a valid confirmation form each cache-clear post responds with a
redirect to the overview page carrying its success message. -/
theorem cache_clear_success_response (s : SysState) :
    (policy_cache_clear_post true s).1
        = PostResponse.redirect overview_url "Successfully cleared Policy cache"
    ∧ (flow_cache_clear_post true s).1
        = PostResponse.redirect overview_url "Successfully cleared Flow cache" :=
  ⟨rfl, rfl⟩

/-- C9: the cache deletion happens before form validation: an invalid form
leaves the same state as a valid one, with every matching key deleted. -/
theorem cache_clear_before_validation (s : SysState) :
    ((policy_cache_clear_post false s).2 = (policy_cache_clear_post true s).2
      ∧ (∀ k, hasPfx "policy_" k = true →
          cacheLookup k ((policy_cache_clear_post false s).2.store) = none))
    ∧ ((flow_cache_clear_post false s).2 = (flow_cache_clear_post true s).2
      ∧ (∀ k, hasPfx "flow_" k = true →
          cacheLookup k ((flow_cache_clear_post false s).2.store) = none)) :=
  ⟨⟨rfl, fun k hk => clearPrefix_lookup_none _ _ globMatch_policy s.store k hk⟩,
   ⟨rfl, fun k hk => clearPrefix_lookup_none _ _ globMatch_flow s.store k hk⟩⟩

theorem cache_clear_before_validation_witness :
    cacheLookup "policy_a"
        ((policy_cache_clear_post false
          ⟨⟨[], [], [], []⟩, [("policy_a", "1")], 0⟩).2.store) = none
    ∧ cacheLookup "flow_b"
        ((flow_cache_clear_post false
          ⟨⟨[], [], [], []⟩, [("flow_b", "2")], 0⟩).2.store) = none :=
  ⟨(cache_clear_before_validation ⟨⟨[], [], [], []⟩, [("policy_a", "1")], 0⟩).1.2
      "policy_a" (by decide),
   (cache_clear_before_validation ⟨⟨[], [], [], []⟩, [("flow_b", "2")], 0⟩).2.2
      "flow_b" (by decide)⟩

/-- C10: clearing a cache prefix twice equals clearing it once, and clearing
when no key matches leaves the state unchanged. -/
theorem cache_clear_idempotent (s : SysState) :
    ((policy_cache_clear_post true (policy_cache_clear_post true s).2).2
        = (policy_cache_clear_post true s).2
      ∧ (cacheKeys "policy_*" s.store = [] → (policy_cache_clear_post true s).2 = s))
    ∧ ((flow_cache_clear_post true (flow_cache_clear_post true s).2).2
        = (flow_cache_clear_post true s).2
      ∧ (cacheKeys "flow_*" s.store = [] → (flow_cache_clear_post true s).2 = s)) := by
  refine ⟨⟨?_, fun h => ?_⟩, ?_, fun h => ?_⟩
  · show (⟨s.db, clearPrefixStore "policy_*" (clearPrefixStore "policy_*" s.store),
        s.queued_tasks⟩ : SysState)
      = ⟨s.db, clearPrefixStore "policy_*" s.store, s.queued_tasks⟩
    rw [clearPrefixStore_idem]
  · show (⟨s.db, clearPrefixStore "policy_*" s.store, s.queued_tasks⟩ : SysState) = s
    rw [clearPrefixStore_no_match _ _ h]
  · show (⟨s.db, clearPrefixStore "flow_*" (clearPrefixStore "flow_*" s.store),
        s.queued_tasks⟩ : SysState)
      = ⟨s.db, clearPrefixStore "flow_*" s.store, s.queued_tasks⟩
    rw [clearPrefixStore_idem]
  · show (⟨s.db, clearPrefixStore "flow_*" s.store, s.queued_tasks⟩ : SysState) = s
    rw [clearPrefixStore_no_match _ _ h]

theorem cache_clear_idempotent_witness :
    (policy_cache_clear_post true
        (policy_cache_clear_post true ⟨⟨[], [], [], []⟩, [("other", "1")], 0⟩).2).2
      = (policy_cache_clear_post true ⟨⟨[], [], [], []⟩, [("other", "1")], 0⟩).2
    ∧ (policy_cache_clear_post true ⟨⟨[], [], [], []⟩, [("other", "1")], 0⟩).2
      = ⟨⟨[], [], [], []⟩, [("other", "1")], 0⟩
    ∧ (flow_cache_clear_post true ⟨⟨[], [], [], []⟩, [("other", "1")], 0⟩).2
      = ⟨⟨[], [], [], []⟩, [("other", "1")], 0⟩ :=
  ⟨(cache_clear_idempotent ⟨⟨[], [], [], []⟩, [("other", "1")], 0⟩).1.1,
   (cache_clear_idempotent ⟨⟨[], [], [], []⟩, [("other", "1")], 0⟩).1.2 (by decide),
   (cache_clear_idempotent ⟨⟨[], [], [], []⟩, [("other", "1")], 0⟩).2.2 (by decide)⟩


theorem eventGroup_eq (evs : List Event) (app : String) :
    eventGroup evs app
      = evs.filter (fun ev => ev.action == EventAction.authorize_application
          && ev.context_authorized_application == some app) := by
  unfold eventGroup filteredAuthEvents
  rw [List.filter_filter]
  refine List.filter_congr ?_
  intro ev _
  cases hctx : ev.context_authorized_application with
  | none => simp
  | some a => simp [Bool.and_comm]

/-- C5: `get_most_used_applications` returns at most 15 rows, each an
application with its total login count and distinct-user count over the
authorization events naming it, drawn only from such events, ordered by
descending total logins. -/
theorem most_used_applications_spec (evs : List Event) :
    (get_most_used_applications evs).length ≤ 15
    ∧ (∀ e ∈ get_most_used_applications evs,
        e.total_logins
            = (evs.filter (fun ev => ev.action == EventAction.authorize_application
                && ev.context_authorized_application == some e.application)).length
        ∧ e.unique_users
            = ((evs.filter (fun ev => ev.action == EventAction.authorize_application
                && ev.context_authorized_application == some e.application)).filterMap
                  Event.user_pk).dedup.length
        ∧ ∃ ev ∈ evs, ev.action = EventAction.authorize_application
            ∧ ev.context_authorized_application = some e.application)
    ∧ (get_most_used_applications evs).Sorted byLoginsDesc := by
  refine ⟨?_, ?_, ?_⟩
  · exact List.length_take_le 15 _
  · intro e he
    have h1 : e ∈ List.insertionSort byLoginsDesc
        ((applicationValues evs).map (statsFor evs)) :=
      List.mem_of_mem_take he
    have h2 : e ∈ (applicationValues evs).map (statsFor evs) :=
      (List.perm_insertionSort byLoginsDesc _).mem_iff.mp h1
    obtain ⟨app, happ, rfl⟩ := List.mem_map.mp h2
    refine ⟨?_, ?_, ?_⟩
    · show (eventGroup evs app).length
        = (evs.filter (fun ev => ev.action == EventAction.authorize_application
            && ev.context_authorized_application == some app)).length
      rw [eventGroup_eq]
    · show ((eventGroup evs app).filterMap Event.user_pk).dedup.length
        = ((evs.filter (fun ev => ev.action == EventAction.authorize_application
            && ev.context_authorized_application == some app)).filterMap
              Event.user_pk).dedup.length
      rw [eventGroup_eq]
    · have happ2 : app ∈ ((filteredAuthEvents evs).filterMap
          Event.context_authorized_application).dedup := happ
      have h3 := List.mem_dedup.mp happ2
      obtain ⟨ev, hev, hctx⟩ := List.mem_filterMap.mp h3
      have hmem := List.mem_filter.mp hev
      have h4 := hmem.2
      rw [Bool.and_eq_true] at h4
      exact ⟨ev, hmem.1, eq_of_beq h4.1, hctx⟩
  · exact List.Pairwise.sublist (List.take_sublist 15 _)
      (List.sorted_insertionSort byLoginsDesc _)

theorem most_used_applications_spec_witness :
    ((⟨"app1", 1, 1⟩ : AppStat) ∈ get_most_used_applications
        [⟨EventAction.authorize_application, some "app1", some "1"⟩])
    ∧ ((⟨"app1", 1, 1⟩ : AppStat).total_logins
        = (([⟨EventAction.authorize_application, some "app1", some "1"⟩] : List Event).filter
            (fun ev => ev.action == EventAction.authorize_application
              && ev.context_authorized_application
                  == some (⟨"app1", 1, 1⟩ : AppStat).application)).length
      ∧ (⟨"app1", 1, 1⟩ : AppStat).unique_users
        = ((([⟨EventAction.authorize_application, some "app1", some "1"⟩] : List Event).filter
            (fun ev => ev.action == EventAction.authorize_application
              && ev.context_authorized_application
                  == some (⟨"app1", 1, 1⟩ : AppStat).application)).filterMap
              Event.user_pk).dedup.length
      ∧ ∃ ev ∈ ([⟨EventAction.authorize_application, some "app1", some "1"⟩] : List Event),
          ev.action = EventAction.authorize_application
          ∧ ev.context_authorized_application = some (⟨"app1", 1, 1⟩ : AppStat).application) :=
  ⟨by decide,
   (most_used_applications_spec
      [⟨EventAction.authorize_application, some "app1", some "1"⟩]).2.1
      ⟨"app1", 1, 1⟩ (by decide)⟩

end Passbook
